import Mathlib

/-!
# Verification of the nomrs chunk codec

Shallow embedding of `src/chunk/mod.rs`, `src/value/mod.rs` and
`src/value/conversion.rs` from the nomrs repository (a Noms-style
content-addressed database client), together with theorems settling the
frozen claims about its specification.

Conventions of the embedding:
* A Rust `u8` byte is a `Nat` (always `< 256` in every input we build);
  a `Vec<u8>` is a `List Nat`.
* Reader operations take the chunk and the current cursor offset and
  return `Option (result × new offset)`.  `none` models a Rust panic
  (out-of-range slice index, failed `unwrap`, failed `assert_eq!`,
  `unimplemented!()`) or undefined behaviour (the unchecked `transmute`
  in `extract_kind`): the source reader has no error channel at all —
  every `extract_*` returns a bare value and aborts otherwise.
* Writer operations: the source `ChunkWriter` is an append-only byte
  buffer threaded through a method chain (`write_kind(..).write_u16(..)`);
  each method only appends bytes, so a chain is embedded as the
  concatenation of the byte lists each call appends.
* Mutually recursive extraction (`extract_chunk` / `extract_struct` /
  `extract_set`) is embedded with an explicit fuel parameter; fuel
  exhaustion yields `none`.  Every successful step of the source
  recursion strictly advances the cursor inside the chunk, so the
  generous top-level fuel `2 * length + 8` never runs out on the inputs
  considered here (all theorems touching these functions evaluate them
  on concrete inputs).
-/

/-- Modelled from the spec: the 20-byte content address.  `hash::Hash` and
`hash::BYTE_LEN` are not under `src/`; §3 of the spec fixes a hash as a
fixed 20-byte opaque identifier with byte equality. -/
structure Hash where
  bytes : List Nat
deriving DecidableEq, Repr

/-- Modelled from the spec: `hash::BYTE_LEN`, the width of a hash (20). -/
def BYTE_LEN : Nat := 20

/-- Modelled from the spec: `hash::EMPTY_HASH`, the all-zero sentinel hash. -/
def EMPTY_HASH : Hash := Hash.mk (List.replicate BYTE_LEN 0)

/-- Modelled from the spec: the closed `Kind` tag set.  The enum is not
under `src/`; §3 of the spec lists the fourteen kinds, each a distinct
single byte with a frozen encoding.  The concrete byte table is not given
by the spec, so the discriminants are assigned in the spec's listing
order, 0 through 13; every property proved below depends only on the
codes being distinct small bytes (so that `0xFF` is not among them). -/
inductive Kind where
  | Boolean
  | Number
  | String
  | Blob
  | Value
  | List
  | Map
  | Ref
  | Set
  | Struct
  | Cycle
  | Type
  | Parent
  | Union
deriving DecidableEq, Repr

/-- The byte code of a kind (`kind as u8` in the source). -/
def Kind.toByte : Kind → Nat
  | .Boolean => 0
  | .Number => 1
  | .String => 2
  | .Blob => 3
  | .Value => 4
  | .List => 5
  | .Map => 6
  | .Ref => 7
  | .Set => 8
  | .Struct => 9
  | .Cycle => 10
  | .Type => 11
  | .Parent => 12
  | .Union => 13

/-- The inverse byte-to-kind reading.  The source performs it as
`unsafe { transmute(self.extract_u8()) }` with no validity check: a byte
that is not a discriminant of `Kind` is undefined behaviour, which the
embedding maps to `none`. -/
def Kind.ofByte? : Nat → Option Kind
  | 0 => some .Boolean
  | 1 => some .Number
  | 2 => some .String
  | 3 => some .Blob
  | 4 => some .Value
  | 5 => some .List
  | 6 => some .Map
  | 7 => some .Ref
  | 8 => some .Set
  | 9 => some .Struct
  | 10 => some .Cycle
  | 11 => some .Type
  | 12 => some .Parent
  | 13 => some .Union
  | _ => none

/-- `Chunk(Vec<u8>)` — an immutable byte buffer
(`src/chunk/mod.rs:13`). -/
structure Chunk where
  data : List Nat
deriving DecidableEq, Repr

/-- `Chunk::new` (`src/chunk/mod.rs:16`). -/
def Chunk.new (d : List Nat) : Chunk := Chunk.mk d

/-- `Chunk::into_data` (`src/chunk/mod.rs:31`). -/
def Chunk.intoData (c : Chunk) : List Nat := c.data

/-- `Value(pub(crate) Chunk)` (`src/value/mod.rs:45`). -/
structure Value where
  chunk : Chunk
deriving DecidableEq, Repr

/-- `Chunk::into_value` (`src/chunk/mod.rs:34`). -/
def Chunk.intoValue (c : Chunk) : Value := Value.mk c

/-- `Value::raw` (`src/value/mod.rs:47`): borrows the wrapped chunk's
byte buffer. -/
def Value.raw (v : Value) : List Nat := v.chunk.data

/-- `Value::into_raw` (`src/value/mod.rs:50`). -/
def Value.intoRaw (v : Value) : List Nat := v.chunk.intoData

/-- `Ref { hash: Hash }` (`src/value/mod.rs:63`). -/
structure Ref where
  hash : Hash
deriving DecidableEq, Repr

/-- `Ref::new` (`src/value/mod.rs:68`). -/
def Ref.new (h : Hash) : Ref := Ref.mk h

/-- `Ref::is_empty` (`src/value/mod.rs:71`): the hash equals the
empty-hash sentinel. -/
def Ref.isEmpty (r : Ref) : Bool := r.hash = EMPTY_HASH

/-- Rust slice `l[i..j]`: defined when `i ≤ j ≤ l.len()`, otherwise a
panic (`none`). -/
def slice? (l : List Nat) (i j : Nat) : Option (List Nat) :=
  if i ≤ j ∧ j ≤ l.length then some ((l.drop i).take (j - i)) else none

/-- `byteorder::NetworkEndian::read_u32`: big-endian `u32` from the
first four bytes of a slice. -/
def readU32BE (l : List Nat) : Nat :=
  (l.take 4).foldl (fun a b => a * 256 + b) 0

/-- Big-endian two-byte encoding of a `u16` value
(`NetworkEndian::write_u16`). -/
def u16BE (n : Nat) : List Nat := [n / 256 % 256, n % 256]

/-- Big-endian four-byte encoding of a `u32` value
(`NetworkEndian::write_u32`). -/
def u32BE (n : Nat) : List Nat :=
  [n / 2 ^ 24 % 256, n / 2 ^ 16 % 256, n / 2 ^ 8 % 256, n % 256]

/-- `ChunkReader::extract_u8` (`src/chunk/mod.rs:56-61`): index one byte
at the cursor (panic when out of range), advance by 1. -/
def extractU8 (c : Chunk) (off : Nat) : Option (Nat × Nat) :=
  match c.data[off]? with
  | some b => some (b, off + 1)
  | none => none

/-- `ChunkReader::extract_u16` as written in the source
(`src/chunk/mod.rs:63-68`): it slices EIGHT bytes at the cursor, reads a
big-endian `u32` from the first four of them, and advances the cursor by
eight. -/
def extractU16 (c : Chunk) (off : Nat) : Option (Nat × Nat) :=
  match slice? c.data off (off + 8) with
  | some s => some (readU32BE s, off + 8)
  | none => none

/-- `ChunkReader::extract_u32` (`src/chunk/mod.rs:70-75`): four bytes,
big-endian, advance by 4. -/
def extractU32 (c : Chunk) (off : Nat) : Option (Nat × Nat) :=
  match slice? c.data off (off + 4) with
  | some s => some (readU32BE s, off + 4)
  | none => none

/-- `ChunkReader::extract_hash` (`src/chunk/mod.rs:48-54`): copy
`BYTE_LEN` bytes, advance by `BYTE_LEN`. -/
def extractHash (c : Chunk) (off : Nat) : Option (Hash × Nat) :=
  match slice? c.data off (off + BYTE_LEN) with
  | some s => some (Hash.mk s, off + BYTE_LEN)
  | none => none

/-- `ChunkReader::extract_kind` (`src/chunk/mod.rs:134-136`): one byte
transmuted to `Kind` with no check. -/
def extractKind (c : Chunk) (off : Nat) : Option (Kind × Nat) :=
  match extractU8 c off with
  | some (b, o) =>
    match Kind.ofByte? b with
    | some k => some (k, o)
    | none => none
  | none => none

/-- `ChunkReader::extract_raw` (`src/chunk/mod.rs:160-165`): copy `len`
bytes into a fresh chunk. -/
def extractRaw (c : Chunk) (off len : Nat) : Option (Chunk × Nat) :=
  match slice? c.data off (off + len) with
  | some s => some (Chunk.mk s, off + len)
  | none => none

/-- `ChunkReader::empty` (`src/chunk/mod.rs:167-169`). -/
def readerEmpty (c : Chunk) (off : Nat) : Bool := c.data.length ≤ off

/-- A UTF-8 continuation byte (`0x80..0xBF`). -/
def utf8Cont (b : Nat) : Bool := 128 ≤ b && b < 192

/-- UTF-8 validity of a byte sequence, following the standard table
(rejecting overlong forms, surrogates and code points above `0x10FFFF`),
as `String::from_utf8` checks it. -/
def isValidUtf8 : List Nat → Bool
  | [] => true
  | b :: rest =>
    if b < 128 then isValidUtf8 rest
    else if b < 194 then false
    else if b < 224 then
      match rest with
      | c1 :: r => utf8Cont c1 && isValidUtf8 r
      | [] => false
    else if b < 240 then
      match rest with
      | c1 :: c2 :: r =>
        (decide ((if b = 224 then 160 else 128) ≤ c1) &&
         decide (c1 < if b = 237 then 160 else 192)) &&
        utf8Cont c2 && isValidUtf8 r
      | _ => false
    else if b < 245 then
      match rest with
      | c1 :: c2 :: c3 :: r =>
        (decide ((if b = 240 then 144 else 128) ≤ c1) &&
         decide (c1 < if b = 244 then 144 else 192)) &&
        utf8Cont c2 && utf8Cont c3 && isValidUtf8 r
      | _ => false
    else false

/-- `String::from_utf8(bytes).unwrap()`: a Rust `String` is embedded as
its UTF-8 byte list; the failed `unwrap` on invalid bytes is a panic. -/
def fromUtf8? (l : List Nat) : Option (List Nat) :=
  if isValidUtf8 l then some l else none

/-- `ChunkReader::extract_raw_string` (`src/chunk/mod.rs:91-97`): a `u8`
length, then that many bytes validated as UTF-8 (panic on invalid). -/
def extractRawString (c : Chunk) (off : Nat) : Option (List Nat × Nat) :=
  match extractU8 c off with
  | some (len, o1) =>
    match slice? c.data o1 (o1 + len) with
    | some s =>
      match fromUtf8? s with
      | some str => some (str, o1 + len)
      | none => none
    | none => none
  | none => none

/-- `ChunkReader::extract_string` (`src/chunk/mod.rs:99-102`):
`assert_eq!(Kind::String, ...)` then the raw string. -/
def extractString (c : Chunk) (off : Nat) : Option (List Nat × Nat) :=
  match extractKind c off with
  | some (k, o1) =>
    if k = Kind.String then extractRawString c o1 else none
  | none => none

/-- `HashSet::insert`: inserting an element already present leaves the
set unchanged.  The list order is the insertion order of the distinct
elements (a `HashSet` itself is unordered; only membership and size are
meaningful). -/
def insertSet {α : Type} [DecidableEq α] (l : List α) (x : α) : List α :=
  if x ∈ l then l else l ++ [x]

/-- `HashMap::insert`: replaces the value of an existing key, otherwise
appends the binding. -/
def insertAssoc {α β : Type} [DecidableEq α] (l : List (α × β)) (k : α) (v : β) :
    List (α × β) :=
  if l.any (fun p => p.1 = k) then
    l.map (fun p => if p.1 = k then (k, v) else p)
  else l ++ [(k, v)]

mutual

/-- `ChunkReader::extract_chunk` (`src/chunk/mod.rs:104-127`): remember
the pre-kind offset, extract the kind, then per kind slice the byte
range of the sub-value into a fresh chunk and set the cursor to the
pre-kind offset plus the slice's length.  `Kind::Ref` slices up to the
post-kind cursor plus `BYTE_LEN`; `Kind::String` reads a `u8` length
and slices up to the post-length cursor plus that length;
`Kind::Struct` and `Kind::Set` rewind to the pre-kind offset, decode
the whole sub-value with `extract_struct` / `extract_set` and slice up
to the resulting cursor; every other kind hits `unimplemented!()`
(a panic, embedded as `none`). -/
def extractChunkF (fuel : Nat) (c : Chunk) (off : Nat) : Option (Chunk × Nat) :=
  match fuel with
  | 0 => none
  | f + 1 =>
    match extractKind c off with
    | none => none
    | some (kind, o1) =>
      match kind with
      | Kind.Ref =>
        match slice? c.data off (o1 + BYTE_LEN) with
        | some s => some (Chunk.mk s, off + s.length)
        | none => none
      | Kind.String =>
        match extractU8 c o1 with
        | some (len, o2) =>
          match slice? c.data off (o2 + len) with
          | some s => some (Chunk.mk s, off + s.length)
          | none => none
        | none => none
      | Kind.Struct =>
        match extractStructF f c off with
        | some (_, o2) =>
          match slice? c.data off o2 with
          | some s => some (Chunk.mk s, off + s.length)
          | none => none
        | none => none
      | Kind.Set =>
        match extractSetChunksF f c off with
        | some (_, o2) =>
          match slice? c.data off o2 with
          | some s => some (Chunk.mk s, off + s.length)
          | none => none
        | none => none
      | _ => none
termination_by structural fuel

/-- `ChunkReader::extract_struct` (`src/chunk/mod.rs:77-89`):
`assert_eq!(Kind::Struct, ...)`, a `u8` name length, the name bytes
(UTF-8 checked via `String::from_utf8(..).unwrap()`), a `u8` property
count, then that many (raw string key, embedded chunk) pairs inserted
into a `HashMap`. -/
def extractStructF (fuel : Nat) (c : Chunk) (off : Nat) :
    Option ((List Nat × List (List Nat × Chunk)) × Nat) :=
  match fuel with
  | 0 => none
  | f + 1 =>
    match extractKind c off with
    | some (kind, o1) =>
      if kind = Kind.Struct then
        match extractU8 c o1 with
        | some (len, o2) =>
          match extractRaw c o2 len with
          | some (nameChunk, o3) =>
            match fromUtf8? nameChunk.data with
            | some name =>
              match extractU8 c o3 with
              | some (propCount, o4) =>
                extractStructLoopF f c o4 propCount name []
              | none => none
            | none => none
          | none => none
        | none => none
      else none
    | none => none
termination_by structural fuel

/-- The property loop of `extract_struct` (`src/chunk/mod.rs:83-87`). -/
def extractStructLoopF (fuel : Nat) (c : Chunk) (off n : Nat) (name : List Nat)
    (acc : List (List Nat × Chunk)) :
    Option ((List Nat × List (List Nat × Chunk)) × Nat) :=
  match fuel with
  | 0 => none
  | f + 1 =>
    match n with
    | 0 => some ((name, acc), off)
    | m + 1 =>
      match extractRawString c off with
      | some (key, o1) =>
        match extractChunkF f c o1 with
        | some (value, o2) =>
          extractStructLoopF f c o2 m name (insertAssoc acc key value)
        | none => none
      | none => none
termination_by structural fuel

/-- `ChunkReader::extract_set` (`src/chunk/mod.rs:150-158`) at the
chunk level: `assert_eq!(Kind::Set, ...)`, a count read with the
source's `extract_u16`, then that many embedded chunks inserted into a
`HashSet`.  The element type parameter `V` only converts each extracted
chunk (`V::from_noms(&self.extract_chunk().into_value())`) and never
touches the reader, so the cursor behaviour is independent of `V`; the
collected elements here are the chunks themselves, which is exactly the
instantiation `V = Chunk` (whose `from_noms` is the identity on the
wrapped chunk, `src/value/conversion.rs:16-18`). -/
def extractSetChunksF (fuel : Nat) (c : Chunk) (off : Nat) :
    Option (List Chunk × Nat) :=
  match fuel with
  | 0 => none
  | f + 1 =>
    match extractKind c off with
    | some (kind, o1) =>
      if kind = Kind.Set then
        match extractU16 c o1 with
        | some (len, o2) => extractSetLoopF f c o2 len []
        | none => none
      else none
    | none => none
termination_by structural fuel

/-- The element loop of `extract_set` (`src/chunk/mod.rs:154-156`). -/
def extractSetLoopF (fuel : Nat) (c : Chunk) (off n : Nat) (acc : List Chunk) :
    Option (List Chunk × Nat) :=
  match fuel with
  | 0 => none
  | f + 1 =>
    match n with
    | 0 => some (acc, off)
    | m + 1 =>
      match extractChunkF f c off with
      | some (el, o1) => extractSetLoopF f c o1 m (insertSet acc el)
      | none => none
termination_by structural fuel

end

/-- Fuel that the bounded recursion never exhausts on the concrete
inputs considered: each successful recursive step consumes bytes of the
chunk or decrements a loop counter bounded by the remaining bytes. -/
def readerFuel (c : Chunk) : Nat := 2 * c.data.length + 8

/-- `ChunkReader::extract_chunk` at the default fuel. -/
def extractChunk (c : Chunk) (off : Nat) : Option (Chunk × Nat) :=
  extractChunkF (readerFuel c) c off

/-- `ChunkReader::extract_set::<Chunk>` at the default fuel. -/
def extractSet (c : Chunk) (off : Nat) : Option (List Chunk × Nat) :=
  extractSetChunksF (readerFuel c) c off

/-- The entry loop of `extract_map` (`src/chunk/mod.rs:142-146`):
each iteration extracts a key chunk and a value chunk and inserts the
pair into a `HashMap`. -/
def extractMapLoop (c : Chunk) : Nat → Nat → List (Chunk × Chunk) →
    Option (List (Chunk × Chunk) × Nat)
  | off, 0, acc => some (acc, off)
  | off, m + 1, acc =>
    match extractChunk c off with
    | some (k, o1) =>
      match extractChunk c o1 with
      | some (v, o2) => extractMapLoop c o2 m (insertAssoc acc k v)
      | none => none
    | none => none

/-- `ChunkReader::extract_map` (`src/chunk/mod.rs:138-148`) at the
chunk level (the instantiation `K = V = Chunk`, whose `from_noms` is
the identity): `assert_eq!(Kind::Map, ...)`, a count read with the
source's `extract_u16`, then the entry loop. -/
def extractMap (c : Chunk) (off : Nat) : Option (List (Chunk × Chunk) × Nat) :=
  match extractKind c off with
  | some (kind, o1) =>
    if kind = Kind.Map then
      match extractU16 c o1 with
      | some (n, o2) => extractMapLoop c o2 n []
      | none => none
    else none
  | none => none

/-- `ChunkReader::extract_ref` (`src/chunk/mod.rs:129-132`):
`assert_eq!(Kind::Ref, ...)`, then a hash. -/
def extractRef (c : Chunk) (off : Nat) : Option (Ref × Nat) :=
  match extractKind c off with
  | some (k, o1) =>
    if k = Kind.Ref then
      match extractHash c o1 with
      | some (h, o2) => some (Ref.new h, o2)
      | none => none
    else none
  | none => none

/-- `ChunkWriter::write_kind` (`src/chunk/mod.rs:201-203`): the bytes a
`write_kind` call appends — `write_u8(kind as u8)`. -/
def writeKind (k : Kind) : List Nat := [k.toByte]

/-- `ChunkWriter::write_hash` (`src/chunk/mod.rs:197-199`): appends the
hash's raw bytes. -/
def writeHash (h : Hash) : List Nat := h.bytes

/-- `ChunkWriter::write_ref` (`src/chunk/mod.rs:205-208`): the kind tag
then the hash. -/
def writeRef (r : Ref) : List Nat := writeKind Kind.Ref ++ writeHash r.hash

/-- `ChunkWriter::write_string` (`src/chunk/mod.rs:225-229`): the
`Kind::String` tag, then `write_u8(string.len() as u8)` — the length
TRUNCATED to a byte — then the string's bytes. -/
def writeString (s : List Nat) : List Nat :=
  writeKind Kind.String ++ [s.length % 256] ++ s

/-- `ChunkWriter::write_map` (`src/chunk/mod.rs:210-219`): the
`Kind::Map` tag, `write_u16(map.len() as u16)`, then for each entry in
the `HashMap`'s ITERATION ORDER the key's and the value's `into_noms`
bytes, spliced with `write_value`.  The iteration order of a
`std::collections::HashMap` is arbitrary (seeded per map instance), so
the embedding takes the iterated entry sequence, already converted to
bytes, as the argument; no sorting of any sort happens in the source. -/
def writeMap (entries : List (List Nat × List Nat)) : List Nat :=
  writeKind Kind.Map ++ u16BE (entries.length % 65536) ++
    (entries.map (fun e => e.1 ++ e.2)).flatten

/-- `HashMap::into_noms` (`src/value/conversion.rs:36-43`):
`Chunk::writer().write_map(self).finish().into_value()`. -/
def intoNomsMap (entries : List (List Nat × List Nat)) : Value :=
  (Chunk.new (writeMap entries)).intoValue

/-- `String::into_noms` (`src/value/conversion.rs:50-57`):
`Chunk::writer().write_string(self).finish().into_value()`. -/
def intoNomsString (s : List Nat) : Value :=
  (Chunk.new (writeString s)).intoValue

/-- `String::from_noms` (`src/value/conversion.rs:45-49`):
`v.0.reader().extract_string()` — only the value is returned, the
reader is dropped. -/
def fromNomsString (v : Value) : Option (List Nat) :=
  match extractString v.chunk 0 with
  | some (s, _) => some s
  | none => none

/-- `HashMap::from_noms` (`src/value/conversion.rs:30-34`):
`v.0.reader().extract_map()` at the chunk level. -/
def fromNomsMap (v : Value) : Option (List (Chunk × Chunk)) :=
  match extractMap v.chunk 0 with
  | some (m, _) => some m
  | none => none

/-- `Vec::<T>::into_noms` (`src/value/conversion.rs:20-28`): a four-byte
big-endian `u32` of `self.len() as u32` (truncated modulo `2^32`),
followed by the concatenation of each element's `into_noms().into_raw()`
bytes, with no kind tag.  The element conversion `T::into_noms` is the
parameter `enc`. -/
def vecIntoNoms {α : Type} (enc : α → List Nat) (v : List α) : List Nat :=
  u32BE (v.length % 2 ^ 32) ++ (v.map enc).flatten

/-! ## Theorems settling the claims -/

/-- C1: the claim says `extract_u16` reads exactly 2 bytes, interprets
them as a big-endian unsigned 16-bit integer, and advances the cursor by
exactly 2 whenever at least two bytes remain.  The source instead slices
eight bytes, reads a big-endian `u32` from the first four, and advances
by eight: on the two-byte chunk `[0x00, 0x05]` (two remaining bytes, so
the claim promises the value 5 with the cursor at 2) it panics, and on
`[0, 0, 0, 5, 9, 9, 9, 9]` it returns the four-byte value 5 with the
cursor at 8 instead of the two-byte value 0 with the cursor at 2. -/
theorem extract_u16_consumes_eight_bytes_not_two :
    extractU16 (Chunk.new [0, 5]) 0 = none ∧
    extractU16 (Chunk.new [0, 0, 0, 5, 9, 9, 9, 9]) 0 = some (5, 8) := by
  decide

/-- C2: the claim says every extract operation either returns a value or
fails with a distinct `Decode*` error and never panics, and that the
bytes `[0xFF, 0x00, 0x00]` fail with `DecodeUnknownKind` at offset 0.
The source reader has no error channel at all: `extract_kind` transmutes
the byte unchecked (undefined behaviour on `0xFF`, embedded as `none`),
and `extract_string` on a short payload panics on an out-of-range slice
(`[Kind::String, 0x05, 0x61, 0x62]` claims five bytes but provides two)
— in neither case is any `Decode*` error value produced. -/
theorem extract_never_returns_decode_errors :
    extractKind (Chunk.new [255, 0, 0]) 0 = none ∧
    extractString (Chunk.new [2, 5, 97, 98]) 0 = none := by
  decide

/-- C3: the claim says `write_map` (and `write_set`) emits container
entries sorted ascending by child-chunk hash, so equal maps encode to
identical bytes regardless of insertion order.  The source iterates the
`HashMap` directly with no sorting (and has no `write_set` at all), so
the emitted bytes depend on the iteration order: the two iteration
orders of the same two-entry map
`{"a" → "x", "b" → "y"}` produce different byte sequences. -/
theorem write_map_depends_on_iteration_order :
    writeMap [(writeString [97], writeString [120]),
              (writeString [98], writeString [121])] ≠
    writeMap [(writeString [98], writeString [121]),
              (writeString [97], writeString [120])] := by
  decide

/-- C4: the claim says `from_noms (into_noms v) = v` for every supported
value, `HashMap` included.  For the empty map, `into_noms` emits the
kind tag plus a two-byte `u16` count (`[Kind::Map, 0x00, 0x00]`), but
`from_noms`'s `extract_map` reads the count back with the source's
`extract_u16`, which demands eight bytes after the tag — so decoding the
three-byte chunk panics on an out-of-range slice instead of returning
the empty map. -/
theorem map_roundtrip_fails_on_empty_map :
    fromNomsMap (intoNomsMap []) = none := by
  decide

/-- C5: the claim says `extract_chunk` handles every well-formed
sub-value, returning the sliced byte range and advancing the cursor by
its encoded length.  On the well-formed empty-Map sub-value
`[Kind::Map, 0x00, 0x00]` the source hits the `unimplemented!()` arm and
panics (the match only implements `Ref`, `String`, `Struct` and `Set`). -/
theorem extract_chunk_panics_on_map_kind :
    extractChunk (Chunk.new [6, 0, 0]) 0 = none := by
  decide

/-- C6: the claim says `write_string` fails with `EncodeTooLong` when
the byte length exceeds 255.  The source has no failure path: it
truncates the length with `as u8` and appends all the bytes, so a
256-byte string is emitted with length byte `0x00` followed by all 256
payload bytes — a malformed chunk instead of an error. -/
theorem write_string_truncates_overlong_length :
    writeString (List.replicate 256 97) =
      Kind.String.toByte :: 0 :: List.replicate 256 97 := by
  rw [writeString, writeKind, List.length_replicate]
  norm_num

/-- C7: the claim says decoding a Set (or Map) rejects entries out of
ascending hash order with `DecodeUnsorted` and repeated entries with
`DecodeDuplicate`.  The source's `extract_set` inserts each element into
a `HashSet` with no order check and no duplicate check: a Set chunk
declaring two elements that are both the string chunk `"a"` decodes
successfully into a one-element set (the count field is the source's
eight-byte `extract_u16` form, first four bytes big-endian = 2). -/
theorem extract_set_accepts_duplicate_elements :
    extractSet (Chunk.new [8, 0, 0, 0, 2, 0, 0, 0, 0, 2, 1, 97, 2, 1, 97]) 0 =
      some ([Chunk.new [2, 1, 97]], 15) := by
  decide

/-- C8: `Vec::into_noms` produces exactly a four-byte big-endian `u32`
element count followed by the concatenation of each element's encoded
bytes, with no kind tag preceding the count — confirmed for every
element encoder and every vector shorter than `2^32`. -/
theorem vec_into_noms_layout {α : Type} (enc : α → List Nat) (v : List α)
    (h : v.length < 2 ^ 32) :
    vecIntoNoms enc v = u32BE v.length ++ (v.map enc).flatten ∧
    (u32BE v.length).length = 4 := by
  constructor
  · unfold vecIntoNoms
    rw [Nat.mod_eq_of_lt h]
  · rfl

/-- Witness for C8 at the concrete vector `[[7], [8, 9]]`. -/
theorem vec_into_noms_layout_witness :
    ([[7], [8, 9]] : List (List Nat)).length < 2 ^ 32 ∧
    (vecIntoNoms id [[7], [8, 9]] =
        u32BE ([[7], [8, 9]] : List (List Nat)).length ++
          (([[7], [8, 9]] : List (List Nat)).map id).flatten ∧
      (u32BE ([[7], [8, 9]] : List (List Nat)).length).length = 4) :=
  ⟨by norm_num, vec_into_noms_layout id [[7], [8, 9]] (by norm_num)⟩

/-- C9: writing a `Ref` with `write_ref` (the `Kind::Ref` tag byte
followed by the 20-byte hash) and reading the resulting chunk back with
`extract_ref` yields the same `Ref`, with the cursor at 21 — confirmed
for every ref whose hash has the 20 bytes the source's `[u8; BYTE_LEN]`
representation guarantees. -/
theorem write_ref_extract_ref_roundtrip (r : Ref) (h : r.hash.bytes.length = 20) :
    extractRef (Chunk.new (writeRef r)) 0 = some (r, 21) := by
  obtain ⟨⟨b⟩⟩ := r
  have hb : b.length = 20 := h
  have htake : b.take 20 = b := by
    rw [← hb]
    exact List.take_length b
  have h1 : extractKind (Chunk.new (7 :: b)) 0 = some (Kind.Ref, 1) := by
    simp [extractKind, extractU8, Chunk.new, Kind.ofByte?]
  have h2 : extractHash (Chunk.new (7 :: b)) 1 = some (Hash.mk b, 21) := by
    simp [extractHash, slice?, Chunk.new, BYTE_LEN, hb, htake]
  have hw : writeRef (Ref.mk (Hash.mk b)) = 7 :: b := rfl
  simp [extractRef, hw, h1, h2, Ref.new]

/-- Witness for C9 at the all-zero 20-byte hash. -/
theorem write_ref_extract_ref_roundtrip_witness :
    (Ref.new (Hash.mk (List.replicate 20 0))).hash.bytes.length = 20 ∧
    extractRef (Chunk.new (writeRef (Ref.new (Hash.mk (List.replicate 20 0))))) 0 =
      some (Ref.new (Hash.mk (List.replicate 20 0)), 21) :=
  ⟨rfl, write_ref_extract_ref_roundtrip (Ref.new (Hash.mk (List.replicate 20 0))) rfl⟩

/-- C10: wrapping a chunk in a `Value` never alters its bytes:
`c.into_value().into_raw()` equals `c.into_data()`, and `Value::raw`
returns exactly the wrapped chunk's byte buffer. -/
theorem into_value_preserves_bytes (c : Chunk) :
    (c.intoValue).intoRaw = c.intoData ∧ (c.intoValue).raw = c.data :=
  ⟨rfl, rfl⟩
